import Mathlib

/-!
Verification of the WeatherStar 4000 Python repository's display-cycling and
weather-API core. Shallow embedding: Python dicts become association lists or
function-valued maps, floats become `Rat`, `time.time()` becomes an explicit
`now : Nat` parameter, and HTTP requests become oracle parameters describing
the response the network would have produced. Each definition mirrors one
function or method of the source (file and line references in doc comments).
-/

set_option maxRecDepth 20000

namespace WStar

/-- Model of parsed JSON values as returned by `response.json()`. -/
inductive JVal where
  | null
  | bool (b : Bool)
  | num (q : Rat)
  | str (s : String)
  | arr (elems : List JVal)
  | obj (fields : List (String × JVal))

/-- Python truthiness of a JSON value (`if data:`): empty dict/list/string,
zero and `None`/`False` are falsy. -/
def truthy : JVal → Bool
  | .null => false
  | .bool b => b
  | .num q => q != 0
  | .str s => s != ""
  | .arr l => !l.isEmpty
  | .obj l => !l.isEmpty

/-- Truthiness of an `Optional` Python value: `None` is falsy. -/
def optTruthy : Option JVal → Bool
  | none => false
  | some v => truthy v

/-- Association-list lookup, modelling `d[k]` / `k in d` on a JSON dict. -/
def lookupField : List (String × JVal) → String → Option JVal
  | [], _ => none
  | (k', v) :: rest, k => if k' = k then some v else lookupField rest k

/-- Dictionary access `data.get(k)` on a JSON value (non-dicts yield nothing). -/
def jGet : JVal → String → Option JVal
  | .obj fields, k => lookupField fields k
  | _, _ => none

end WStar

namespace WAPI

/-!
Embedding of `src/weatherstar_modules/weather_api.py`.
-/

open WStar

/-- State of `WeatherAPIBase.__init__` (weather_api.py:19-24): the `cache` and
`cache_time` dicts and the constructor-supplied `cache_ttl`. -/
structure WeatherAPIBase where
  cache : String → Option JVal
  cache_time : String → Option Nat
  cache_ttl : Nat

/-- `WeatherAPIBase._cache_key` (weather_api.py:26-28): `json.dumps(args)`;
modelled as an injective-by-construction join of the arguments. -/
def cache_key (tag : String) (lat lon : Rat) : String :=
  tag ++ "|" ++ toString lat ++ "|" ++ toString lon

/-- `WeatherAPIBase._is_cache_valid` (weather_api.py:30-36): fresh iff the key
was stamped and `time.time() - cache_time[key] < ttl`, where
`ttl = max_age if max_age else self.cache_ttl` (so `None` and `0` both fall
back to `cache_ttl`). -/
def is_cache_valid (st : WeatherAPIBase) (now : Nat) (key : String)
    (max_age : Option Nat) : Bool :=
  match st.cache_time key with
  | none => false
  | some t =>
    let ttl := match max_age with
      | some m => if m = 0 then st.cache_ttl else m
      | none => st.cache_ttl
    now - t < ttl

/-- `WeatherAPIBase._get_cached` (weather_api.py:38-43). -/
def get_cached (st : WeatherAPIBase) (now : Nat) (key : String)
    (max_age : Option Nat) : Option JVal :=
  if is_cache_valid st now key max_age then st.cache key else none

/-- `WeatherAPIBase._set_cache` (weather_api.py:45-49). -/
def set_cache (st : WeatherAPIBase) (now : Nat) (key : String) (data : JVal) :
    WeatherAPIBase :=
  { st with
    cache := fun k => if k = key then some data else st.cache k,
    cache_time := fun k => if k = key then some now else st.cache_time k }

/-- State of `NOAAWeatherAPI` (weather_api.py:65-70): the inherited base-class
cache plus the `functools.lru_cache` memo that the `@lru_cache(maxsize=128)`
decorator on `get_grid_point` (weather_api.py:72) maintains, keyed on the
`(lat, lon)` arguments.  Eviction at 128 entries is not modelled. -/
structure NOAAWeatherAPI where
  base : WeatherAPIBase
  gridLru : List ((Rat × Rat) × Option JVal)

/-- Lookup in the `lru_cache` memo. -/
def lruLookup (l : List ((Rat × Rat) × Option JVal)) (k : Rat × Rat) :
    Option (Option JVal) :=
  (l.find? (fun e => decide (e.1 = k))).map Prod.snd

/-- `NOAAWeatherAPI.get_grid_point` (weather_api.py:72-87), including the
`@lru_cache` layer: a memo hit returns the memoized result without running the
body; otherwise the body consults the TTL cache (`if cached: return cached`,
a truthiness test), else performs the fetch (`fetch` is the oracle for
`_fetch_json`), storing `data['properties']` on success.  Every body return
value is recorded in the memo by the decorator.  The result triple is
(returned value, new state, whether `_fetch_json` was invoked). -/
def get_grid_point (st : NOAAWeatherAPI) (now : Nat) (lat lon : Rat)
    (fetch : Option JVal) : Option JVal × NOAAWeatherAPI × Bool :=
  match lruLookup st.gridLru (lat, lon) with
  | some r => (r, st, false)
  | none =>
    let key := cache_key "grid" lat lon
    let cached := get_cached st.base now key (some 3600)
    if optTruthy cached then
      (cached, { st with gridLru := st.gridLru ++ [((lat, lon), cached)] }, false)
    else
      match fetch with
      | some data =>
        if truthy data && (jGet data "properties").isSome then
          let result := (jGet data "properties").getD JVal.null
          (some result,
           { st with base := set_cache st.base now key result,
                     gridLru := st.gridLru ++ [((lat, lon), some result)] },
           true)
        else (none, { st with gridLru := st.gridLru ++ [((lat, lon), none)] }, true)
      | none => (none, { st with gridLru := st.gridLru ++ [((lat, lon), none)] }, true)

/-- `UnifiedWeatherAPI._is_us_location` (weather_api.py:284-306): continental
US, Alaska or Hawaii bounding boxes.  (`@lru_cache` here memoizes a pure
function of its arguments, so it does not change the input/output behaviour.) -/
def is_us_location (lat lon : Rat) : Bool :=
  (24 ≤ lat && lat ≤ 49 && -125 ≤ lon && lon ≤ -66) ||
  (51 ≤ lat && lat ≤ 72 && -180 ≤ lon && lon ≤ -129) ||
  (18 ≤ lat && lat ≤ 23 && -161 ≤ lon && lon ≤ -154)

/-- Result record of `UnifiedWeatherAPI.get_weather`:
`{'source': ..., 'current': ..., 'forecast': ...}`. -/
structure WeatherResult where
  source : String
  current : Option JVal
  forecast : Option JVal

/-- `UnifiedWeatherAPI.get_weather` (weather_api.py:308-332).  The results of
the four sub-fetches (`noaa.get_current_conditions`, `noaa.get_forecast`,
`open_meteo.get_current_weather`, `open_meteo.get_forecast`) are passed as
oracle parameters; the method combines them: for a US location (unless
`prefer_international`) it returns the NOAA pair when `current or forecast`
is truthy, otherwise it falls through to the Open Meteo pair unconditionally. -/
def get_weather (lat lon : Rat) (prefer_international : Bool)
    (noaaCurrent noaaForecast omCurrent omForecast : Option JVal) :
    WeatherResult :=
  if !prefer_international && is_us_location lat lon then
    if optTruthy noaaCurrent || optTruthy noaaForecast then
      { source := "NOAA", current := noaaCurrent, forecast := noaaForecast }
    else
      { source := "Open Meteo", current := omCurrent, forecast := omForecast }
  else
    { source := "Open Meteo", current := omCurrent, forecast := omForecast }

end WAPI

namespace WS

/-!
Embedding of `src/weatherstar4000.py`.
-/

open WStar

/-- Outcome of one `requests.get` call as seen by the main-file API methods:
a 200 response with parseable JSON, a 200 response whose `.json()` raises, a
non-200 status, or a raised network exception. -/
inductive HttpResult where
  | ok (body : JVal)
  | badJson
  | httpError (code : Nat)
  | netError

/-- A response that does not produce data (anything but a parseable 200). -/
def HttpResult.isFailure : HttpResult → Bool
  | .ok _ => false
  | _ => true

/-- Cache state of the main file's `NOAAWeatherAPI.__init__`
(weatherstar4000.py:214-219): the `cache` and `cache_time` dicts. -/
structure NOAAWeatherAPI where
  cache : String → Option JVal
  cache_time : String → Option Nat

/-- `NOAAWeatherAPI._is_cache_valid` (weatherstar4000.py:221-229): fresh iff
stamped and `time.time() - cache_time[key] < max_age`. -/
def is_cache_valid (st : NOAAWeatherAPI) (now : Nat) (key : String)
    (max_age : Nat) : Bool :=
  match st.cache_time key with
  | none => false
  | some t => now - t < max_age

/-- `NOAAWeatherAPI._cache_data` (weatherstar4000.py:231-235). -/
def cache_data (st : NOAAWeatherAPI) (now : Nat) (key : String) (data : JVal) :
    NOAAWeatherAPI :=
  { cache := fun k => if k = key then some data else st.cache k,
    cache_time := fun k => if k = key then some now else st.cache_time k }

/-- Cache key `f"point_{lat}_{lon}"` of `get_point_data`. -/
def pointKey (lat lon : Rat) : String :=
  "point_" ++ toString lat ++ "_" ++ toString lon

/-- `NOAAWeatherAPI.get_point_data` (weatherstar4000.py:237-260): return the
cached value when fresh (max age 3600 s); otherwise issue the request (`resp`
is the oracle for `requests.get` + `resp.json()`); on a 200 cache and return
the body; on any failure (non-200, bad JSON, raised exception) return `None`
without touching the cache.  Result: (value, new state, request issued). -/
def get_point_data (st : NOAAWeatherAPI) (now : Nat) (lat lon : Rat)
    (resp : HttpResult) : Option JVal × NOAAWeatherAPI × Bool :=
  let key := pointKey lat lon
  if is_cache_valid st now key 3600 then (st.cache key, st, false)
  else
    match resp with
    | .ok data => (some data, cache_data st now key data, true)
    | _ => (none, st, true)

/-- `NOAAWeatherAPI.get_stations` (weatherstar4000.py:262-283); cache key
`f"stations_{stations_url}"`, max age 3600 s. -/
def get_stations (st : NOAAWeatherAPI) (now : Nat) (stations_url : String)
    (resp : HttpResult) : Option JVal × NOAAWeatherAPI × Bool :=
  let key := "stations_" ++ stations_url
  if is_cache_valid st now key 3600 then (st.cache key, st, false)
  else
    match resp with
    | .ok data => (some data, cache_data st now key data, true)
    | _ => (none, st, true)

/-- `NOAAWeatherAPI.get_current_observations` (weatherstar4000.py:285-306);
cache key `f"obs_{station_id}"`, max age 300 s. -/
def get_current_observations (st : NOAAWeatherAPI) (now : Nat)
    (station_id : String) (resp : HttpResult) :
    Option JVal × NOAAWeatherAPI × Bool :=
  let key := "obs_" ++ station_id
  if is_cache_valid st now key 300 then (st.cache key, st, false)
  else
    match resp with
    | .ok data => (some data, cache_data st now key data, true)
    | _ => (none, st, true)

/-- `NOAAWeatherAPI.get_forecast` (weatherstar4000.py:308-331); cache key
`f"forecast_{office}_{gridX}_{gridY}"`, max age 1800 s. -/
def get_forecast (st : NOAAWeatherAPI) (now : Nat) (office : String)
    (gridX gridY : Int) (resp : HttpResult) :
    Option JVal × NOAAWeatherAPI × Bool :=
  let key := "forecast_" ++ office ++ "_" ++ toString gridX ++ "_" ++ toString gridY
  if is_cache_valid st now key 1800 then (st.cache key, st, false)
  else
    match resp with
    | .ok data => (some data, cache_data st now key data, true)
    | _ => (none, st, true)

/-- `NOAAWeatherAPI.get_hourly_forecast` (weatherstar4000.py:333-355); cache
key `f"hourly_{office}_{gridX}_{gridY}"`, max age 1800 s. -/
def get_hourly_forecast (st : NOAAWeatherAPI) (now : Nat) (office : String)
    (gridX gridY : Int) (resp : HttpResult) :
    Option JVal × NOAAWeatherAPI × Bool :=
  let key := "hourly_" ++ office ++ "_" ++ toString gridX ++ "_" ++ toString gridY
  if is_cache_valid st now key 1800 then (st.cache key, st, false)
  else
    match resp with
    | .ok data => (some data, cache_data st now key data, true)
    | _ => (none, st, true)

/-- `DisplayMode` enum (weatherstar4000.py:57-78). -/
inductive DisplayMode where
  | PROGRESS
  | CURRENT_CONDITIONS
  | LOCAL_FORECAST
  | EXTENDED_FORECAST
  | HOURLY_FORECAST
  | REGIONAL_OBSERVATIONS
  | TRAVEL_CITIES
  | ALMANAC
  | RADAR
  | HAZARDS
  | MARINE_FORECAST
  | AIR_QUALITY
  | TEMPERATURE_GRAPH
  | WEATHER_RECORDS
  | SUN_MOON
  | WIND_PRESSURE
  | WEEKEND_FORECAST
  | MONTHLY_OUTLOOK
  | MSN_NEWS
  | REDDIT_NEWS
  | LOCAL_NEWS
deriving DecidableEq, BEq, Repr

/-- The settings flags read by `update_display_list`
(weatherstar4000.py:376-384 initialises `show_marine=False`, `show_msn=True`,
`show_reddit=True`; `show_local_news` is absent so `settings.get(...)`
defaults apply). -/
structure Settings where
  show_marine : Bool
  show_msn : Bool
  show_reddit : Bool
  show_local_news : Bool
deriving DecidableEq

/-- Python `list.insert(n, a)`: insert before index `n`, appending when `n`
is past the end. -/
def pyInsert (n : Nat) (a : α) : List α → List α
  | [] => [a]
  | x :: xs =>
    match n with
    | 0 => a :: x :: xs
    | n + 1 => x :: pyInsert n a xs

/-- `WeatherStar4000Complete.update_display_list`
(weatherstar4000.py:1023-1059): the fixed 16-entry base list, with
`MARINE_FORECAST` inserted at index 9 when `show_marine`, and the news pages
appended when their flags are set.  The Python method is a pure function of
`self.settings`: it reads nothing else and writes only `self.display_list`
(this value) and `self.displays` (see `displaysOf`). -/
def update_display_list (s : Settings) : List DisplayMode :=
  let base : List DisplayMode :=
    [.CURRENT_CONDITIONS, .EXTENDED_FORECAST, .HOURLY_FORECAST,
     .REGIONAL_OBSERVATIONS, .TRAVEL_CITIES, .LOCAL_FORECAST, .ALMANAC,
     .RADAR, .HAZARDS, .AIR_QUALITY, .TEMPERATURE_GRAPH, .WEATHER_RECORDS,
     .SUN_MOON, .WIND_PRESSURE, .WEEKEND_FORECAST, .MONTHLY_OUTLOOK]
  let base := if s.show_marine then pyInsert 9 .MARINE_FORECAST base else base
  let base := if s.show_msn then base ++ [.MSN_NEWS] else base
  let base := if s.show_reddit then base ++ [.REDDIT_NEWS] else base
  let base := if s.show_local_news then base ++ [.LOCAL_NEWS] else base
  base

/-- The `self.displays` assignment at weatherstar4000.py:1060: the display
list with `PROGRESS` filtered out. -/
def displaysOf (s : Settings) : List DisplayMode :=
  (update_display_list s).filter (fun m => m != DisplayMode.PROGRESS)

/-- Station filter in `initialize_location` (weatherstar4000.py:751):
`len(station_id) == 4 and not station_id[0] in 'UC'`. -/
def stationPred (sid : String) : Bool :=
  sid.length == 4 && !(sid.front == 'U' || sid.front == 'C')

/-- The station-scanning loop of `initialize_location`
(weatherstar4000.py:749-754): first identifier satisfying the filter. -/
def stationScan : List String → Option String
  | [] => none
  | sid :: rest => if stationPred sid then some sid else stationScan rest

/-- Station selection in `initialize_location` (weatherstar4000.py:743-758),
as a function of the `stationIdentifier` list extracted from the stations
response: the scan, then the first-station fallback
(`if not self.station and stations['features']`), with `self.station`
remaining `None` when the list is empty. -/
def selectStation (ids : List String) : Option String :=
  match stationScan ids with
  | some sid => some sid
  | none => ids.head?

/-- `SCREEN_WIDTH` (weatherstar4000.py:49). -/
def SCREEN_WIDTH : Rat := 640

/-- `DISPLAY_DURATION_MS` (weatherstar4000.py:53). -/
def DISPLAY_DURATION_MS : Int := 15000

/-- `SCROLL_SPEED` (weatherstar4000.py:54), pixels per second. -/
def SCROLL_SPEED : Rat := 100

/-- State of the bottom `ScrollingText` banner
(weatherstar4000.py:123-132): queued items, current text, horizontal scroll
position and last-update wall-clock time. -/
structure ScrollingText where
  text_items : List String
  current_text : String
  scroll_x : Rat
  last_update : Rat
deriving DecidableEq

/-- `ScrollingText.update` (weatherstar4000.py:139-156).  `now` stands for
`time.time()` and `text_width` for `self.font.size(self.current_text)[0]`. -/
def scrollUpdate (now text_width : Rat) (sc : ScrollingText) : ScrollingText :=
  let dt := now - sc.last_update
  let sc := { sc with last_update := now, scroll_x := sc.scroll_x - SCROLL_SPEED * dt }
  if sc.scroll_x < -text_width then
    let sc := { sc with scroll_x := SCREEN_WIDTH }
    match sc.text_items with
    | [] => sc
    | x :: rest => { sc with current_text := x, text_items := rest ++ [x] }
  else sc

/-- The slide-controller state owned by `WeatherStar4000Complete`: the active
display list and index, the per-page timer, the auto-advance flag, the fade
transition fields (weatherstar4000.py:428-430, 445-449), the scroller and the
settings.  `screen` abstracts the pygame surface contents (used only for
`self.screen.copy()` in `cycle_display`). -/
structure WeatherStarState where
  settings : Settings
  displays : List DisplayMode
  current_display_index : Int
  display_timer : Int
  is_playing : Bool
  transition_active : Bool
  transition_alpha : Int
  transition_surface : Option Nat
  screen : Nat
  scroller : ScrollingText

/-- `WeatherStar4000Complete.cycle_display` (weatherstar4000.py:3356-3368):
start the fade transition, capture the screen, advance the index modulo the
list length, and reset the page timer.  (Python `%` on ints is `Int.emod`;
the source raises `ZeroDivisionError` on an empty list, which no theorem here
exercises.) -/
def cycle_display (s : WeatherStarState) : WeatherStarState :=
  { s with
    transition_active := true,
    transition_alpha := 255,
    transition_surface := some s.screen,
    current_display_index := (s.current_display_index + 1) % (s.displays.length : Int),
    display_timer := 0 }

/-- The `K_LEFT` handler of the main loop (weatherstar4000.py:3482-3487):
step the index back modulo the list length and reset the page timer. -/
def previous_display (s : WeatherStarState) : WeatherStarState :=
  { s with
    current_display_index := (s.current_display_index - 1) % (s.displays.length : Int),
    display_timer := 0 }

/-- One frame of the main loop's timing logic (weatherstar4000.py:3452-3453
and 3492-3494): `display_timer += dt`, then auto-cycle when playing and the
timer has reached `DISPLAY_DURATION_MS`. -/
def tick_frame (dt : Int) (s : WeatherStarState) : WeatherStarState :=
  if s.is_playing ∧ DISPLAY_DURATION_MS ≤ s.display_timer + dt then
    cycle_display { s with display_timer := s.display_timer + dt }
  else { s with display_timer := s.display_timer + dt }

/-- The settings-menu rebuild path (weatherstar4000.py:994-1012): a toggle
stores the new flag value and calls `update_display_list`, which replaces
`self.displays`; `current_display_index` is left untouched (no clamping
exists anywhere in the source). -/
def rebuild_pages (ns : Settings) (s : WeatherStarState) : WeatherStarState :=
  { s with settings := ns, displays := displaysOf ns }

/-- Navigation commands applied to the slide state: `K_RIGHT` / auto-advance
(`cycle_display`), `K_LEFT`, a timing frame, and a settings-toggle rebuild. -/
inductive Command where
  | next
  | previous
  | tick (dt : Int)
  | rebuild (ns : Settings)

/-- Dispatch of one command on the state. -/
def step : Command → WeatherStarState → WeatherStarState
  | .next => cycle_display
  | .previous => previous_display
  | .tick dt => tick_frame dt
  | .rebuild ns => rebuild_pages ns

/-- Left fold of a command sequence over the state. -/
def run_commands (cs : List Command) (s : WeatherStarState) : WeatherStarState :=
  cs.foldl (fun st c => step c st) s

/-- The render-dispatch access `self.displays[self.current_display_index]`
(weatherstar4000.py:3503).  `none` models the `IndexError` raised when the
index is out of range (the index is never negative in reachable states). -/
def current_mode (s : WeatherStarState) : Option DisplayMode :=
  s.displays.get? s.current_display_index.toNat

/-- The settings initialised in `WeatherStar4000Complete.__init__`
(weatherstar4000.py:376-384): `show_marine=False`, `show_msn=True`,
`show_reddit=True`, and `show_local_news` unset, read back as `False` by
`settings.get('show_local_news', False)`. -/
def initial_settings : Settings :=
  { show_marine := false, show_msn := true, show_reddit := true,
    show_local_news := false }

/-- The state after `__init__` finishes (weatherstar4000.py:428-430, 445-449,
455, 465): index 0, timer 0, playing, no transition, display list built by
`update_display_list` from the initial settings, scroller fresh with
`scroll_x = SCREEN_WIDTH`. -/
def initialState : WeatherStarState :=
  { settings := initial_settings,
    displays := displaysOf initial_settings,
    current_display_index := 0,
    display_timer := 0,
    is_playing := true,
    transition_active := false,
    transition_alpha := 255,
    transition_surface := none,
    screen := 0,
    scroller := { text_items := [], current_text := "", scroll_x := SCREEN_WIDTH,
                  last_update := 0 } }

/-- Python `int()` on a number: truncation toward zero. -/
def pyInt (q : Rat) : Int :=
  if 0 ≤ q then q.floor else q.ceil

/-- The Celsius-to-Fahrenheit conversion `int(c * 9/5 + 32)` used throughout
`draw_current_conditions`. -/
def c2f (c : Rat) : Int :=
  pyInt (c * 9 / 5 + 32)

/-- Python `str.ljust`. -/
def ljust (s : String) (n : Nat) : String :=
  s ++ String.mk (List.replicate (n - s.length) ' ')

/-- Python `str.rjust`. -/
def rjust (s : String) (n : Nat) : String :=
  String.mk (List.replicate (n - s.length) ' ') ++ s

/-- Round to the nearest integer, ties to even (Python float formatting). -/
def roundHalfEven (q : Rat) : Int :=
  let f := q.floor
  let r := q - (f : Rat)
  if r < 1 / 2 then f
  else if 1 / 2 < r then f + 1
  else if f % 2 = 0 then f else f + 1

/-- Fixed-point formatting with `prec` decimals, modelling Python
`f"{x:.1f}"` / `f"{x:.2f}"` (round half to even). -/
def fmtFixed (prec : Nat) (q : Rat) : String :=
  let p : Nat := 10 ^ prec
  let n := roundHalfEven (q * (p : Rat))
  let a := n.natAbs
  let fpStr := toString (a % p)
  let fpStr := String.mk (List.replicate (prec - fpStr.length) '0') ++ fpStr
  (if n < 0 then "-" else "") ++ toString (a / p) ++
    (if prec = 0 then "" else "." ++ fpStr)

/-- `_get_wind_direction` (weatherstar4000.py:3129-3136): degrees to one of
16 compass points via `int((degrees + 11.25) / 22.5) % 16`. -/
def get_wind_direction (degrees : Option Rat) : String :=
  match degrees with
  | none => ""
  | some d =>
    let directions := ["N", "NNE", "NE", "ENE", "E", "ESE", "SE", "SSE",
                       "S", "SSW", "SW", "WSW", "W", "WNW", "NW", "NNW"]
    directions.getD ((pyInt ((d + 11.25) / 22.5)) % 16).toNat ""

/-- Icon-name map of `_get_icon_name` (weatherstar4000.py:3118-3124). -/
def icon_map : List (String × String) :=
  [("skc", "Clear"), ("few", "Clear"), ("sct", "Partly-Cloudy"),
   ("bkn", "Cloudy"), ("ovc", "Cloudy"),
   ("rain", "Rain"), ("rain_showers", "Shower"),
   ("tsra", "Thunderstorm"), ("snow", "Light-Snow"),
   ("fog", "Fog"), ("wind", "Windy")]

/-- `_get_icon_name` (weatherstar4000.py:3106-3127): split the NOAA icon URL
on `/`, take the last segment up to `?`, and map it (defaulting to
`'Clear'`); empty URL or URL without `/` yields `None`. -/
def get_icon_name (icon_url : String) : Option String :=
  if icon_url = "" then none
  else
    let parts := icon_url.splitOn "/"
    if 2 ≤ parts.length then
      let condition := ((parts.getLastD "").splitOn "?").headD ""
      some ((((icon_map.find? (fun p => p.1 == condition)).map Prod.snd)).getD "Clear")
    else none

/-- One entry of the `cloudLayers` observation field, as read by
`draw_current_conditions` (weatherstar4000.py:1534-1543): the layer `amount`
code and `base.value` height in metres. -/
structure CloudLayer where
  amount : String
  base : Option Rat
deriving DecidableEq

/-- The fields of `weather_data['current']` that `draw_current_conditions`
reads (each an optional `...['value']`, plus the `textDescription`, `icon`
and `cloudLayers` entries with their Python defaults). -/
structure Current where
  temperature : Option Rat
  textDescription : String
  icon : String
  windSpeed : Option Rat
  windDirection : Option Rat
  windGust : Option Rat
  relativeHumidity : Option Rat
  dewpoint : Option Rat
  cloudLayers : List CloudLayer
  visibility : Option Rat
  barometricPressure : Option Rat
  heatIndex : Option Rat
  windChill : Option Rat
deriving DecidableEq

/-- One element blitted to the screen by `draw_current_conditions`, in blit
order; pixel coordinates, fonts and colors are presentation details not
modelled. -/
inductive Drawn where
  | background (name : String)
  | headerTop (t : String)
  | headerBottom (t : String)
  | tempLarge (t : String)
  | condDesc (t : String)
  | icon (name : String)
  | windLabel (t : String)
  | windValue (t : String)
  | gustText (t : String)
  | locationText (t : String)
  | dataRow (label : String) (value : String)
deriving DecidableEq

/-- The humidity entry of `row_data` (weatherstar4000.py:1522-1525):
present only when `relativeHumidity.value` is not `None`. -/
def humidity_rows (c : Current) : List (String × String) :=
  match c.relativeHumidity with
  | some h => [("Humidity:", toString (pyInt h) ++ "%")]
  | none => []

/-- The dewpoint entry of `row_data` (weatherstar4000.py:1527-1531). -/
def dewpoint_rows (c : Current) : List (String × String) :=
  match c.dewpoint with
  | some d => [("Dewpoint:", toString (c2f d) ++ "°")]
  | none => []

/-- The ceiling computed at weatherstar4000.py:1533-1543: the first cloud
layer whose amount is `BKN`/`OVC` and whose base height is present, converted
to feet. -/
def ceiling_of (layers : List CloudLayer) : Option Int :=
  match layers.find? (fun l => (l.amount == "BKN" || l.amount == "OVC") && l.base.isSome) with
  | some l =>
    match l.base with
    | some h => some (pyInt (h * 3.28084))
    | none => none
  | none => none

/-- The ceiling entry of `row_data` (weatherstar4000.py:1545-1549): always
present, `"Unlimited"` when no ceiling or zero. -/
def ceiling_rows (c : Current) : List (String × String) :=
  let cstr := match ceiling_of c.cloudLayers with
    | none => "Unlimited"
    | some n => if n = 0 then "Unlimited" else toString n ++ " ft"
  [("Ceiling:", cstr)]

/-- The visibility entry of `row_data` (weatherstar4000.py:1551-1559). -/
def visibility_rows (c : Current) : List (String × String) :=
  match c.visibility with
  | some v =>
    let vis_miles := v * 0.000621371
    [("Visibility:", if 10 ≤ vis_miles then "10 mi" else fmtFixed 1 vis_miles ++ " mi")]
  | none => []

/-- The pressure entry of `row_data` (weatherstar4000.py:1561-1585),
including the trend arrow computed from the (passed-in) pressure history as
the source does from `self.weather_trends['pressure']`. -/
def pressure_rows (show_trends : Bool) (hist : List Rat) (c : Current) :
    List (String × String) :=
  match c.barometricPressure with
  | none => []
  | some p =>
    let pinhg := p * 0.0002953
    let trend :=
      if show_trends then
        let hist := hist ++ [pinhg]
        let hist := if 5 < hist.length then hist.drop 1 else hist
        if 2 ≤ hist.length then
          let change := hist.getLastD 0 - hist.headD 0
          if 0.02 < change then "↑"
          else if change < -0.02 then "↓"
          else "→"
        else ""
      else ""
    [("Pressure:", (fmtFixed 2 pinhg ++ "\" " ++ trend).trim)]

/-- The heat-index guard at weatherstar4000.py:1591: heat index present,
temperature present and above 26 °C. -/
def heatCond (c : Current) : Bool :=
  match c.heatIndex, c.temperature with
  | some _, some t => 26 < t
  | _, _ => false

/-- The wind-chill guard at weatherstar4000.py:1594: wind chill present,
temperature present and below 10 °C. -/
def chillCond (c : Current) : Bool :=
  match c.windChill, c.temperature with
  | some _, some t => t < 10
  | _, _ => false

/-- The heat-index / wind-chill entry of `row_data`
(weatherstar4000.py:1587-1596). -/
def heat_chill_rows (c : Current) : List (String × String) :=
  if heatCond c then
    [("Heat Index:", toString (c2f (c.heatIndex.getD 0)) ++ "°")]
  else if chillCond c then
    [("Wind Chill:", toString (c2f (c.windChill.getD 0)) ++ "°")]
  else []

/-- The full `row_data` list built at weatherstar4000.py:1519-1596, in append
order. -/
def row_data (show_trends : Bool) (hist : List Rat) (c : Current) :
    List (String × String) :=
  humidity_rows c ++ dewpoint_rows c ++ ceiling_rows c ++ visibility_rows c ++
    pressure_rows show_trends hist c ++ heat_chill_rows c

/-- The wind string computed at weatherstar4000.py:1474-1491: direction plus
right-aligned mph when speed is positive, `"Calm"` at zero, `"N/A"` when no
wind data (the `if wind_dir` truthiness guard drops the direction for `None`
and for exactly 0 degrees). -/
def wind_str (c : Current) : String :=
  match c.windSpeed with
  | some ws =>
    if 0 < ws then
      let wind_mph := pyInt (ws * 0.621371)
      let direction :=
        match c.windDirection with
        | some d => if d ≠ 0 then get_wind_direction (some d) else ""
        | none => ""
      ljust direction 3 ++ rjust (toString wind_mph) 3
    else if ws = 0 then "Calm"
    else "N/A"
  | none => "N/A"

/-- `WeatherStar4000Complete.draw_current_conditions`
(weatherstar4000.py:1420-1610) as the ordered list of elements it blits.
`iconLookup` abstracts the icon assets (`self.icon_manager.get_icon` plus the
static `self.icons` fallback); `show_trends` and `hist` stand for
`self.settings['show_trends']` and `self.weather_trends['pressure']`; `city`
is `self.location['city']`; `current` is `self.weather_data.get('current')`
with `none` for the empty/missing dict (the early `if not current: return`).
Every optional data point is guarded exactly as in the source. -/
def draw_current_conditions (iconLookup : Option String → Option String)
    (show_trends : Bool) (hist : List Rat) (city : String)
    (current : Option Current) : List Drawn :=
  let header := [Drawn.background "1", Drawn.headerTop "CURRENT",
                 Drawn.headerBottom "CONDITIONS"]
  match current with
  | none => header
  | some c =>
    header
    ++ (match c.temperature with
        | some t => [Drawn.tempLarge (toString (c2f t) ++ "°")]
        | none => [])
    ++ (if c.textDescription ≠ "" then [Drawn.condDesc (c.textDescription.take 15)]
        else [])
    ++ (match iconLookup (get_icon_name c.icon) with
        | some ic => [Drawn.icon ic]
        | none => [])
    ++ [Drawn.windLabel "Wind:"]
    ++ [Drawn.windValue (wind_str c)]
    ++ (match c.windGust with
        | some g => [Drawn.gustText ("Gusts to " ++ toString (pyInt (g * 0.621371)))]
        | none => [])
    ++ (if city.trim.take 20 ≠ "" then [Drawn.locationText (city.trim.take 20)]
        else [])
    ++ (row_data show_trends hist c).map (fun r => Drawn.dataRow r.1 r.2)

/-- The four optional-page settings flags toggled from the context menu
(weatherstar4000.py:955-1012). -/
inductive OptionalFlag where
  | marine
  | msn
  | reddit
  | localNews

/-- One menu toggle: flip the flag (as `self.settings[...] = not ...` does). -/
def toggleFlag : OptionalFlag → Settings → Settings
  | .marine, s => { s with show_marine := !s.show_marine }
  | .msn, s => { s with show_msn := !s.show_msn }
  | .reddit, s => { s with show_reddit := !s.show_reddit }
  | .localNews, s => { s with show_local_news := !s.show_local_news }

/-- The fixed core subset named by the spec (current conditions, forecast,
hourly, regional observations, travel cities, almanac, radar), in its base
order in `update_display_list`. -/
def coreModes : List DisplayMode :=
  [.CURRENT_CONDITIONS, .EXTENDED_FORECAST, .HOURLY_FORECAST,
   .REGIONAL_OBSERVATIONS, .TRAVEL_CITIES, .ALMANAC, .RADAR]

/-- The optional pages gated on settings flags in `update_display_list`. -/
def optionalModes : List DisplayMode :=
  [.MARINE_FORECAST, .MSN_NEWS, .REDDIT_NEWS, .LOCAL_NEWS]

/-- Checks that every core page occurs in `l` and precedes every optional
page that occurs in `l`. -/
def coreBeforeOptional (l : List DisplayMode) : Bool :=
  coreModes.all (fun c =>
    l.contains c && optionalModes.all (fun o =>
      !(l.contains o) || l.indexOf c < l.indexOf o))

/-- The command sequence of the C1 failing input: seventeen `K_RIGHT`
presses (landing on the last of the 18 startup pages), then the menu toggle
that disables Reddit news. -/
def c1Commands : List Command :=
  List.replicate 17 Command.next ++
    [Command.rebuild { initial_settings with show_reddit := false }]

end WS

namespace Witness

/-!
Concrete states used by the closed witness and counterexample theorems.
-/

open WStar WAPI WS

/-- An empty main-file API cache. -/
def emptyApi : WS.NOAAWeatherAPI :=
  { cache := fun _ => none, cache_time := fun _ => none }

/-- An empty `WeatherAPIBase` cache with the `NOAAWeatherAPI` default
`cache_ttl=300`. -/
def emptyBase : WAPI.WeatherAPIBase :=
  { cache := fun _ => none, cache_time := fun _ => none, cache_ttl := 300 }

/-- A fresh module-file NOAA API state. -/
def api0 : WAPI.NOAAWeatherAPI := { base := emptyBase, gridLru := [] }

/-- A grid-point `properties` payload. -/
def gridProps : JVal := .obj [("gridId", .str "TOP")]

/-- A successful `/points` response body. -/
def gridFetch : Option JVal := some (.obj [("properties", gridProps)])

/-- First `get_grid_point` call at t0 = 1000: a cache miss that fetches and
stores. -/
def gridCall1 : Option JVal × WAPI.NOAAWeatherAPI × Bool :=
  WAPI.get_grid_point api0 1000 39 (-95) gridFetch

/-- State after the first call (TTL cache and lru memo populated). -/
def api1 : WAPI.NOAAWeatherAPI := gridCall1.2.1

/-- Second `get_grid_point` call with the same coordinates at
t1 = 4600 = t0 + 3600 (TTL expired). -/
def gridCall2 : Option JVal × WAPI.NOAAWeatherAPI × Bool :=
  WAPI.get_grid_point api1 4600 39 (-95) none

/-- A module-file NOAA API state whose lru memo is empty but whose TTL cache
holds a falsy value (empty dict) stored at t = 1000 under the grid key. -/
def apiFalsy : WAPI.NOAAWeatherAPI :=
  { base := WAPI.set_cache emptyBase 1000 (WAPI.cache_key "grid" 39 (-95)) (.obj []),
    gridLru := [] }

/-- Third call: lru miss, fresh-but-falsy TTL entry, at the same instant
t = 1000 (age 0). -/
def gridCall3 : Option JVal × WAPI.NOAAWeatherAPI × Bool :=
  WAPI.get_grid_point apiFalsy 1000 39 (-95) none

/-- Main-file cache state right after `get_point_data` stored a response at
t0 = 1000. -/
def mainStored : WS.NOAAWeatherAPI :=
  (WS.get_point_data emptyApi 1000 39 (-95) (.ok gridProps)).2.1

/-- A current-conditions record with a temperature but no humidity (and no
other optional values). -/
def partialCurrent : WS.Current :=
  { temperature := some 20, textDescription := "", icon := "",
    windSpeed := none, windDirection := none, windGust := none,
    relativeHumidity := none, dewpoint := none, cloudLayers := [],
    visibility := none, barometricPressure := none, heatIndex := none,
    windChill := none }

end Witness

/-! ## Theorems -/

open WStar WAPI WS Witness

section Cycling

/-- Advancing preserves the display list. -/
lemma cycle_display_displays (s : WeatherStarState) :
    (cycle_display s).displays = s.displays := rfl

/-- Advancing steps the index modulo the list length. -/
lemma cycle_display_index (s : WeatherStarState) :
    (cycle_display s).current_display_index =
      (s.current_display_index + 1) % (s.displays.length : Int) := rfl

/-- Stepping a reduced residue is the same as reducing the stepped value. -/
lemma emod_add_one (a n : Int) : (a % n + 1) % n = (a + 1) % n := by
  conv_rhs => rw [Int.add_emod]
  rw [Int.add_emod (a % n) 1, Int.emod_emod_of_dvd _ dvd_rfl]

/-- Iterating `cycle_display` keeps the display list and tracks the index
arithmetic. -/
lemma cycle_display_iterate (s : WeatherStarState) (k : Nat) :
    (cycle_display^[k] s).displays = s.displays ∧
    (cycle_display^[k] s).current_display_index =
      (if k = 0 then s.current_display_index
       else (s.current_display_index + k) % (s.displays.length : Int)) := by
  induction k with
  | zero => simp
  | succ m ih =>
    obtain ⟨ihd, ihi⟩ := ih
    rw [Function.iterate_succ_apply']
    refine ⟨by rw [cycle_display_displays, ihd], ?_⟩
    rw [cycle_display_index, ihd, ihi]
    by_cases hm : m = 0
    · subst hm; simp
    · rw [if_neg hm, if_neg (Nat.succ_ne_zero m), emod_add_one]
      push_cast
      ring_nf

end Cycling

/-- C6: for a state whose index is in range of its non-empty display list,
applying `cycle_display` (the `Next` command, weatherstar4000.py:3364-3367)
exactly `len(displays)` times returns `current_display_index` to its
original value. -/
theorem C6_next_wraparound (s : WeatherStarState)
    (h0 : 0 ≤ s.current_display_index)
    (h1 : s.current_display_index < (s.displays.length : Int)) :
    (cycle_display^[s.displays.length] s).current_display_index =
      s.current_display_index := by
  have hn : s.displays.length ≠ 0 := by
    intro h
    rw [h] at h1
    omega
  rw [(cycle_display_iterate s s.displays.length).2, if_neg hn]
  have h2 : s.current_display_index + (s.displays.length : Int) =
      s.current_display_index + (s.displays.length : Int) * 1 := by ring
  rw [h2, Int.add_mul_emod_self_left, Int.emod_eq_of_lt h0 h1]

/-- C6 witness: the 18-page startup state at index 0 returns to index 0
after 18 `Next` commands. -/
theorem C6_next_wraparound_witness :
    (0 : Int) ≤ initialState.current_display_index ∧
    initialState.current_display_index < (initialState.displays.length : Int) ∧
    (cycle_display^[initialState.displays.length] initialState).current_display_index =
      initialState.current_display_index :=
  ⟨by decide, by decide, C6_next_wraparound initialState (by decide) (by decide)⟩

/-- C9: a page transition (`Next` via `cycle_display`, `Previous` via the
`K_LEFT` handler, or a timing frame including an auto-advance) changes only
the page index, the page timer and the fade-transition fields: the persistent
scrolling ticker's state (scroll position, current text, queued items), the
display list, the settings and the play flag are all untouched
(weatherstar4000.py:3356-3368, 3482-3487, 3452-3453, 3492-3494). -/
theorem C9_transition_preserves_ticker (s : WeatherStarState) (dt : Int) :
    (cycle_display s).scroller = s.scroller ∧
    (cycle_display s).displays = s.displays ∧
    (cycle_display s).settings = s.settings ∧
    (cycle_display s).is_playing = s.is_playing ∧
    (previous_display s).scroller = s.scroller ∧
    (previous_display s).displays = s.displays ∧
    (previous_display s).settings = s.settings ∧
    (previous_display s).is_playing = s.is_playing ∧
    (tick_frame dt s).scroller = s.scroller ∧
    (tick_frame dt s).displays = s.displays ∧
    (tick_frame dt s).settings = s.settings ∧
    (tick_frame dt s).is_playing = s.is_playing := by
  refine ⟨rfl, rfl, rfl, rfl, rfl, rfl, rfl, rfl, ?_, ?_, ?_, ?_⟩ <;>
    · unfold tick_frame
      split <;> rfl

/-- C1 (code-bug evidence): from the startup state (18 active pages:
16 base plus MSN and Reddit news), pressing `K_RIGHT` seventeen times lands
on the last page (index 17); the menu toggle that disables Reddit news then
rebuilds the list to 17 entries but `update_display_list`
(weatherstar4000.py:1023-1060) never clamps `current_display_index`, so the
render access `self.displays[self.current_display_index]`
(weatherstar4000.py:3503) is out of bounds (`current_mode` is `none`,
an `IndexError` in the source) — the claimed clamp to
`max(0, len(new_active_pages) - 1)` does not exist in the code. -/
theorem C1_rebuild_unclamped_out_of_bounds :
    (displaysOf initial_settings).length = 18 ∧
    (run_commands (List.replicate 17 Command.next) initialState).current_display_index = 17 ∧
    (run_commands c1Commands initialState).displays.length = 17 ∧
    (run_commands c1Commands initialState).current_display_index = 17 ∧
    current_mode (run_commands c1Commands initialState) = none :=
  ⟨rfl, rfl, rfl, rfl, rfl⟩

section Ticks

/-- A frame that does not reach the page duration only accumulates the
timer. -/
lemma tick_frame_no_advance (dt : Int) (s : WeatherStarState)
    (h : s.display_timer + dt < DISPLAY_DURATION_MS) :
    tick_frame dt s = { s with display_timer := s.display_timer + dt } := by
  unfold tick_frame
  rw [if_neg]
  rintro ⟨-, hge⟩
  exact absurd hge (not_le.mpr h)

/-- Up to fourteen 1000 ms frames from a zero timer only accumulate. -/
lemma ticks_accumulate (s : WeatherStarState) (ht : s.display_timer = 0) :
    ∀ k : Nat, k ≤ 14 →
      (tick_frame 1000)^[k] s = { s with display_timer := 1000 * k } := by
  intro k
  induction k with
  | zero =>
    intro _
    cases s
    simp_all
  | succ m ih =>
    intro hk
    rw [Function.iterate_succ_apply', ih (by omega),
      tick_frame_no_advance 1000 _ (by show (1000 : Int) * m + 1000 < 15000; omega)]
    show { s with display_timer := (1000 : Int) * m + 1000 } =
      { s with display_timer := 1000 * ((m + 1 : Nat) : Int) }
    have h2 : (1000 : Int) * m + 1000 = 1000 * ((m + 1 : Nat) : Int) := by
      push_cast
      ring
    rw [h2]

end Ticks

/-- C3: with auto-advance on (`is_playing`) and a zero page timer, fifteen
1000 ms frames (`DISPLAY_DURATION_MS = 15000`, weatherstar4000.py:53,
3452-3453, 3492-3494) advance the page exactly once — no advance through the
fourteenth frame, one modular step on the fifteenth, wrapping to 0 from the
last page — and leave the timer at 0 immediately afterward. -/
theorem C3_auto_advance_timing (s : WeatherStarState)
    (hp : s.is_playing = true) (ht : s.display_timer = 0) :
    ((tick_frame 1000)^[14] s).current_display_index = s.current_display_index ∧
    ((tick_frame 1000)^[15] s).current_display_index =
      (s.current_display_index + 1) % (s.displays.length : Int) ∧
    ((tick_frame 1000)^[15] s).display_timer = 0 ∧
    (s.current_display_index = (s.displays.length : Int) - 1 →
      ((tick_frame 1000)^[15] s).current_display_index = 0) := by
  have h14 : (tick_frame 1000)^[14] s = { s with display_timer := 14000 } := by
    exact ticks_accumulate s ht 14 (by omega)
  have h15 : (tick_frame 1000)^[15] s =
      cycle_display { s with display_timer := 15000 } := by
    rw [show (15 : Nat) = 14 + 1 from rfl, Function.iterate_succ_apply', h14]
    unfold tick_frame
    rw [if_pos ⟨hp, by show (15000 : Int) ≤ 14000 + 1000; norm_num⟩]
    rfl
  refine ⟨by rw [h14], by rw [h15]; rfl, by rw [h15]; rfl, ?_⟩
  intro hlast
  rw [h15, cycle_display_index]
  simp only [hlast]
  have h3 : (s.displays.length : Int) - 1 + 1 = s.displays.length := by ring
  rw [h3, Int.emod_self]

/-- C3 witness: the startup state (playing, timer 0, 18 pages, index 0)
moves to index 1 with timer 0 after fifteen 1000 ms frames, and is still at
index 0 after fourteen. -/
theorem C3_auto_advance_timing_witness :
    initialState.is_playing = true ∧
    initialState.display_timer = 0 ∧
    ((tick_frame 1000)^[14] initialState).current_display_index =
      initialState.current_display_index ∧
    ((tick_frame 1000)^[15] initialState).current_display_index =
      (initialState.current_display_index + 1) % (initialState.displays.length : Int) ∧
    ((tick_frame 1000)^[15] initialState).display_timer = 0 := by
  have h := C3_auto_advance_timing initialState rfl rfl
  exact ⟨rfl, rfl, h.1, h.2.1, h.2.2.1⟩

/-- C7: `update_display_list` (weatherstar4000.py:1023-1060) is a pure
function of the settings (embedded as such: the Python method reads only
`self.settings` and replaces `self.display_list`/`self.displays` wholesale),
so toggling any optional-page flag twice restores the exact page sequence;
for every settings combination the core subset (current conditions, extended
forecast, hourly, regional observations, travel cities, almanac, radar)
appears as the same fixed subsequence, and every optional page present
(marine, MSN, Reddit, local news) sits at a strictly later position than
every core page. -/
theorem C7_rebuild_stability (s : Settings) (f : OptionalFlag) :
    update_display_list (toggleFlag f (toggleFlag f s)) = update_display_list s ∧
    (update_display_list s).filter (fun m => coreModes.contains m) = coreModes ∧
    coreBeforeOptional (update_display_list s) = true := by
  obtain ⟨a, b, c, d⟩ := s
  cases f <;> cases a <;> cases b <;> cases c <;> cases d <;> decide

/-- C4: for every main-file API operation (`get_point_data`, `get_stations`,
`get_current_observations`, `get_forecast`, `get_hourly_forecast`,
weatherstar4000.py:237-355), a failed fetch — network exception, non-200
status, or malformed JSON — makes the call return `None` instead of raising
and leaves the whole cache state exactly as it was (the hypotheses say the
respective key was stale, i.e. a request was actually issued). -/
theorem C4_fetch_failure_preserves_cache (st : WS.NOAAWeatherAPI) (now : Nat)
    (lat lon : Rat) (url sid office : String) (gx gy : Int) (resp : HttpResult)
    (hf : resp.isFailure = true) :
    (WS.is_cache_valid st now (pointKey lat lon) 3600 = false →
      get_point_data st now lat lon resp = (none, st, true)) ∧
    (WS.is_cache_valid st now ("stations_" ++ url) 3600 = false →
      get_stations st now url resp = (none, st, true)) ∧
    (WS.is_cache_valid st now ("obs_" ++ sid) 300 = false →
      get_current_observations st now sid resp = (none, st, true)) ∧
    (WS.is_cache_valid st now
        ("forecast_" ++ office ++ "_" ++ toString gx ++ "_" ++ toString gy) 1800 = false →
      get_forecast st now office gx gy resp = (none, st, true)) ∧
    (WS.is_cache_valid st now
        ("hourly_" ++ office ++ "_" ++ toString gx ++ "_" ++ toString gy) 1800 = false →
      get_hourly_forecast st now office gx gy resp = (none, st, true)) := by
  refine ⟨?_, ?_, ?_, ?_, ?_⟩ <;> intro h <;> cases resp <;>
    simp_all [get_point_data, get_stations, get_current_observations,
      get_forecast, get_hourly_forecast, HttpResult.isFailure, pointKey]

/-- C4 witness: on an empty cache, a network error in `get_point_data`
returns `None` and leaves the state untouched. -/
theorem C4_fetch_failure_preserves_cache_witness :
    HttpResult.netError.isFailure = true ∧
    WS.is_cache_valid emptyApi 0 (pointKey 39 (-95)) 3600 = false ∧
    get_point_data emptyApi 0 39 (-95) .netError = (none, emptyApi, true) := by
  have h := C4_fetch_failure_preserves_cache emptyApi 0 39 (-95) "u" "KTOP" "TOP"
    31 80 .netError rfl
  exact ⟨rfl, rfl, h.1 rfl⟩

section StationScan

/-- The scanning loop agrees with `List.find?` on the station filter. -/
lemma stationScan_eq_find (ids : List String) :
    stationScan ids = ids.find? stationPred := by
  induction ids with
  | nil => rfl
  | cons x xs ih =>
    unfold stationScan
    cases h : stationPred x <;> simp [List.find?_cons, h, ih]

end StationScan

/-- C5: station selection (weatherstar4000.py:743-758) picks the first
identifier of length 4 not starting with `U` or `C`; failing that, the first
station of the list; and selects nothing when the list is empty. -/
theorem C5_station_selection (ids : List String) :
    (ids = [] → selectStation ids = none) ∧
    (∀ sid, ids.find? stationPred = some sid → selectStation ids = some sid) ∧
    (ids ≠ [] → ids.find? stationPred = none → selectStation ids = ids.head?) := by
  refine ⟨?_, ?_, ?_⟩
  · rintro rfl
    rfl
  · intro sid h
    simp [selectStation, stationScan_eq_find, h]
  · intro hne h
    simp [selectStation, stationScan_eq_find, h]

/-- C5 witness: in a list whose first entry starts with `U`, the second,
conforming identifier is selected. -/
theorem C5_station_selection_witness :
    ["U123", "KTOP"].find? stationPred = some "KTOP" ∧
    selectStation ["U123", "KTOP"] = some "KTOP" :=
  ⟨by decide, (C5_station_selection ["U123", "KTOP"]).2.1 "KTOP" (by decide)⟩

/-- C10: `UnifiedWeatherAPI.get_weather` (weather_api.py:308-332) is total
(always returns a record with `source`, `current` and `forecast` fields) and,
for the default `prefer_international=False` call: a US location whose NOAA
pair yields data (at least one sub-result truthy, i.e. not `None`/empty —
the source tests `if current or forecast`) is tagged `NOAA` with the NOAA
pair; a non-US location, or a NOAA pair with no data, falls back to the
Open Meteo pair, returned as-is even when both of its fields are `None`. -/
theorem C10_unified_weather_fallback (lat lon : Rat) (nc nf oc og : Option JVal) :
    (is_us_location lat lon = true → (optTruthy nc || optTruthy nf) = true →
      get_weather lat lon false nc nf oc og =
        { source := "NOAA", current := nc, forecast := nf }) ∧
    (is_us_location lat lon = false →
      get_weather lat lon false nc nf oc og =
        { source := "Open Meteo", current := oc, forecast := og }) ∧
    ((optTruthy nc || optTruthy nf) = false →
      get_weather lat lon false nc nf oc og =
        { source := "Open Meteo", current := oc, forecast := og }) := by
  refine ⟨?_, ?_, ?_⟩
  · intro h1 h2
    simp [get_weather, h1, h2]
  · intro h1
    simp [get_weather, h1]
  · intro h1
    by_cases h2 : is_us_location lat lon <;> simp [get_weather, h1, h2]

/-- C10 witness: a Kansas coordinate with a truthy NOAA current-conditions
result is tagged NOAA; the same coordinate with empty NOAA results falls back
to the Open Meteo pair even with both fields `None`. -/
theorem C10_unified_weather_fallback_witness :
    is_us_location 39 (-95) = true ∧
    get_weather 39 (-95) false (some gridProps) none none none =
      { source := "NOAA", current := some gridProps, forecast := none } ∧
    get_weather 39 (-95) false none none none none =
      { source := "Open Meteo", current := none, forecast := none } := by
  refine ⟨rfl, ?_, ?_⟩
  · exact (C10_unified_weather_fallback 39 (-95) (some gridProps) none none none).1 rfl rfl
  · exact (C10_unified_weather_fallback 39 (-95) none none none none).2.2 rfl

/-- C2 counterexample: the claim "re-fetches if and only if t1 − t0 ≥ m" is
false for `weather_api.py`'s `get_grid_point`.  A first call at t0 = 1000
misses, fetches and stores successfully; a second call with the same
coordinates at t1 = 4600 (so t1 − t0 = 3600 ≥ m = 3600) hits the
`functools.lru_cache` memo and returns the stored value WITHOUT re-invoking
the fetch.  Additionally (third call, fresh state with an empty memo): a
falsy cached value (empty dict) stored under the key IS re-fetched even at
age 0 < m, because of the `if cached:` truthiness test — refuting the
"returns the stored value without re-invoking the fetch if t1 − t0 < m, for
every stored value including falsy ones" direction as well. -/
theorem C2_ttl_claim_counterexample :
    gridCall1.2.2 = true ∧
    api1.base.cache_time (WAPI.cache_key "grid" 39 (-95)) = some 1000 ∧
    (3600 : Nat) ≤ 4600 - 1000 ∧
    gridCall2.2.2 = false ∧
    gridCall2.1 = some gridProps ∧
    (1000 : Nat) - 1000 < 3600 ∧
    gridCall3.2.2 = true :=
  ⟨rfl, rfl, by norm_num, rfl, rfl, by norm_num, rfl⟩

/-- C2 amended: (a) for the main file's `NOAAWeatherAPI.get_point_data`
(weatherstar4000.py:237-260) the TTL iff holds for every stored value: a
lookup at `t1` after a store at `t0` returns the stored value without a
request iff `t1 − t0 < 3600`, and issues a request iff `t1 − t0 ≥ 3600`;
(b) for `weather_api.py`'s `get_grid_point`, an `lru_cache` memo hit returns
the memoized value and never re-invokes the fetch, regardless of elapsed
time; and (c) on a memo miss, a fresh-but-falsy TTL entry (empty dict) is
re-fetched even within the max-age. -/
theorem C2_amended_ttl
    (st : WS.NOAAWeatherAPI) (lat lon : Rat) (t0 t1 : Nat) (v : JVal)
    (resp : HttpResult)
    (hstamp : st.cache_time (pointKey lat lon) = some t0)
    (hval : st.cache (pointKey lat lon) = some v)
    (wst : WAPI.NOAAWeatherAPI) (now : Nat) (glat glon : Rat)
    (fetch fetch2 : Option JVal) (r : Option JVal)
    (hlru : WAPI.lruLookup wst.gridLru (glat, glon) = some r)
    (wst2 : WAPI.NOAAWeatherAPI) (t0g now2 : Nat)
    (hlru2 : WAPI.lruLookup wst2.gridLru (glat, glon) = none)
    (hstamp2 : wst2.base.cache_time (WAPI.cache_key "grid" glat glon) = some t0g)
    (hfalsy : wst2.base.cache (WAPI.cache_key "grid" glat glon) = some (JVal.obj []))
    (hfresh : now2 - t0g < 3600) :
    (t1 - t0 < 3600 → get_point_data st t1 lat lon resp = (some v, st, false)) ∧
    (3600 ≤ t1 - t0 → (get_point_data st t1 lat lon resp).2.2 = true) ∧
    WAPI.get_grid_point wst now glat glon fetch = (r, wst, false) ∧
    (WAPI.get_grid_point wst2 now2 glat glon fetch2).2.2 = true := by
  refine ⟨?_, ?_, ?_, ?_⟩
  · intro h
    have hv2 : WS.is_cache_valid st t1 (pointKey lat lon) 3600 = true := by
      simp [WS.is_cache_valid, hstamp]
      exact h
    simp [get_point_data, hv2, hval]
  · intro h
    have hv2 : WS.is_cache_valid st t1 (pointKey lat lon) 3600 = false := by
      simp [WS.is_cache_valid, hstamp]
      omega
    cases resp <;> simp [get_point_data, hv2]
  · simp [WAPI.get_grid_point, hlru]
  · have hc : WAPI.get_cached wst2.base now2 (WAPI.cache_key "grid" glat glon)
        (some 3600) = some (JVal.obj []) := by
      have hv2 : WAPI.is_cache_valid wst2.base now2
          (WAPI.cache_key "grid" glat glon) (some 3600) = true := by
        simp [WAPI.is_cache_valid, hstamp2]
        exact hfresh
      simp [WAPI.get_cached, hv2, hfalsy]
    have hot : optTruthy (some (JVal.obj [])) = false := rfl
    cases fetch2 with
    | none => simp [WAPI.get_grid_point, hlru2, hc, hot]
    | some data =>
      simp only [WAPI.get_grid_point, hlru2, hc, hot, Bool.false_eq_true, if_false]
      split <;> rfl

/-- C2 amended witness: after `get_point_data` stores at t0 = 1000, a lookup
at t1 = 2000 returns the stored value without a request and one at t1 = 5000
issues a request; `get_grid_point` returns its memoized value without
fetching at t1 = 4600 after storing at t0 = 1000, and re-fetches a fresh
falsy entry at age 0. -/
theorem C2_amended_ttl_witness :
    mainStored.cache_time (pointKey 39 (-95)) = some 1000 ∧
    mainStored.cache (pointKey 39 (-95)) = some gridProps ∧
    get_point_data mainStored 2000 39 (-95) .netError = (some gridProps, mainStored, false) ∧
    (get_point_data mainStored 5000 39 (-95) .netError).2.2 = true ∧
    WAPI.get_grid_point api1 4600 39 (-95) none = (some gridProps, api1, false) ∧
    (WAPI.get_grid_point apiFalsy 1000 39 (-95) none).2.2 = true := by
  have hlru_fact : WAPI.lruLookup api1.gridLru (39, -95) = some (some gridProps) := by rfl
  have h1 := C2_amended_ttl mainStored 39 (-95) 1000 2000 gridProps .netError rfl rfl
    api1 4600 39 (-95) none none (some gridProps) hlru_fact
    apiFalsy 1000 1000 rfl rfl rfl (by norm_num)
  have h2 := C2_amended_ttl mainStored 39 (-95) 1000 5000 gridProps .netError rfl rfl
    api1 4600 39 (-95) none none (some gridProps) hlru_fact
    apiFalsy 1000 1000 rfl rfl rfl (by norm_num)
  exact ⟨rfl, rfl, h1.1 (by norm_num), h2.2.1 (by norm_num), h1.2.2.1, h1.2.2.2⟩


section RowLabels

/-- With no humidity value, the humidity entry is absent. -/
lemma humidity_rows_of_none {c : Current} (h : c.relativeHumidity = none) :
    humidity_rows c = [] := by
  simp [humidity_rows, h]

/-- Every dewpoint entry is labelled `Dewpoint:`. -/
lemma dewpoint_rows_label {c : Current} {p : String × String}
    (hp : p ∈ dewpoint_rows c) : p.1 = "Dewpoint:" := by
  cases h : c.dewpoint with
  | none => simp [dewpoint_rows, h] at hp
  | some d =>
    simp [dewpoint_rows, h] at hp
    simp [hp]

/-- The ceiling entry is labelled `Ceiling:`. -/
lemma ceiling_rows_label {c : Current} {p : String × String}
    (hp : p ∈ ceiling_rows c) : p.1 = "Ceiling:" := by
  simp [ceiling_rows] at hp
  simp [hp]

/-- Every visibility entry is labelled `Visibility:`. -/
lemma visibility_rows_label {c : Current} {p : String × String}
    (hp : p ∈ visibility_rows c) : p.1 = "Visibility:" := by
  cases h : c.visibility with
  | none => simp [visibility_rows, h] at hp
  | some d =>
    simp [visibility_rows, h] at hp
    simp [hp]

/-- Every pressure entry is labelled `Pressure:`. -/
lemma pressure_rows_label {st : Bool} {hist : List Rat} {c : Current}
    {p : String × String} (hp : p ∈ pressure_rows st hist c) :
    p.1 = "Pressure:" := by
  cases h : c.barometricPressure with
  | none => simp [pressure_rows, h] at hp
  | some d =>
    simp [pressure_rows, h] at hp
    simp [hp]

/-- Every heat-index / wind-chill entry is labelled accordingly. -/
lemma heat_chill_rows_label {c : Current} {p : String × String}
    (hp : p ∈ heat_chill_rows c) :
    p.1 = "Heat Index:" ∨ p.1 = "Wind Chill:" := by
  unfold heat_chill_rows at hp
  split at hp
  · simp at hp
    simp [hp]
  · split at hp
    · simp at hp
      simp [hp]
    · simp at hp

/-- With no humidity value, no `row_data` entry is labelled `Humidity:`. -/
lemma row_data_no_humidity {st : Bool} {hist : List Rat} {c : Current}
    (h : c.relativeHumidity = none) :
    ∀ p ∈ row_data st hist c, p.1 ≠ "Humidity:" := by
  intro p hp
  unfold row_data at hp
  rw [humidity_rows_of_none h] at hp
  simp only [List.nil_append, List.mem_append] at hp
  rcases hp with ((((h1 | h2) | h3) | h4) | h5)
  · rw [dewpoint_rows_label h1]
    decide
  · rw [ceiling_rows_label h2]
    decide
  · rw [visibility_rows_label h3]
    decide
  · rw [pressure_rows_label h4]
    decide
  · rcases heat_chill_rows_label h5 with h6 | h6 <;> rw [h6] <;> decide

end RowLabels

/-- C8: rendering the current-conditions page on a record lacking humidity
cannot raise (the embedding `draw_current_conditions` is a total function
mirroring every guard of weatherstar4000.py:1420-1610), and its output still
contains the large temperature text and the wind label/value pair while
containing no `Humidity:` data row. -/
theorem C8_partial_data_resilience (iconLookup : Option String → Option String)
    (show_trends : Bool) (hist : List Rat) (city : String) (c : Current)
    (t : Rat) (htemp : c.temperature = some t)
    (hhum : c.relativeHumidity = none) :
    Drawn.tempLarge (toString (c2f t) ++ "°") ∈
      draw_current_conditions iconLookup show_trends hist city (some c) ∧
    Drawn.windLabel "Wind:" ∈
      draw_current_conditions iconLookup show_trends hist city (some c) ∧
    Drawn.windValue (wind_str c) ∈
      draw_current_conditions iconLookup show_trends hist city (some c) ∧
    ∀ v, Drawn.dataRow "Humidity:" v ∉
      draw_current_conditions iconLookup show_trends hist city (some c) := by
  refine ⟨?_, ?_, ?_, ?_⟩
  · simp [draw_current_conditions, htemp]
  · simp [draw_current_conditions]
  · simp [draw_current_conditions]
  · intro v hv
    unfold draw_current_conditions at hv
    simp only [List.mem_append, List.mem_cons, List.not_mem_nil, or_false,
      List.mem_singleton, List.mem_map] at hv
    rcases hv with ((((((((hv | hv | hv) | hv) | hv) | hv) | hv) | hv) | hv) | hv) | hv
    all_goals try first
      | simp at hv
      | (split at hv <;> simp at hv)
    exact row_data_no_humidity hhum ("Humidity:", v) hv rfl

/-- C8 witness: a record with temperature 20 °C and no humidity renders the
temperature text and the wind value, with no humidity row. -/
theorem C8_partial_data_resilience_witness :
    partialCurrent.temperature = some 20 ∧
    partialCurrent.relativeHumidity = none ∧
    Drawn.tempLarge (toString (c2f 20) ++ "°") ∈
      draw_current_conditions (fun _ => none) false [] "" (some partialCurrent) ∧
    Drawn.windValue (wind_str partialCurrent) ∈
      draw_current_conditions (fun _ => none) false [] "" (some partialCurrent) := by
  have h := C8_partial_data_resilience (fun _ => none) false [] "" partialCurrent
    20 rfl rfl
  exact ⟨rfl, rfl, h.1, h.2.2.1⟩
